import Mathlib

/-!
Verification of the HouseWiz device manager (src/housewiz_device.c) against
its natural-language specification.

The C module is shallowly embedded below.  Times (`time_t`) are `Int`;
C int booleans (`status`, `commanded`) are `Bool`; the sentinel value 0 of
`pending`/`deadline`/`detected` is kept as the integer 0.  Stateful C code
becomes explicit state passing on the record types; emitted `houselog_event`
notifications and outbound UDP datagrams are returned as explicit lists so
that theorems can talk about them.
-/

namespace Housewiz

/-- `struct sockaddr_in`, reduced to the fields the module reads or writes:
the IPv4 address (as a number) and the port. -/
structure SockAddrIn where
  ip : Nat
  port : Nat
  deriving DecidableEq

/-- `WizDevicePort` (src/housewiz_device.c line 127): the fixed device
command port. -/
def WizDevicePort : Nat := 38899

/-- `struct DeviceMap` (src/housewiz_device.c lines 108-119). -/
structure DeviceMap where
  name : String
  macaddress : String
  description : String
  ipaddress : SockAddrIn
  detected : Int
  status : Bool
  commanded : Bool
  pending : Int
  deadline : Int
  last_sense : Int
  deriving DecidableEq

/-- The all-zero record produced by `calloc` for device slots. -/
def zeroDevice : DeviceMap :=
  { name := ""
    macaddress := ""
    description := ""
    ipaddress := { ip := 0, port := 0 }
    detected := 0
    status := false
    commanded := false
    pending := 0
    deadline := 0
    last_sense := 0 }

/-- The `houselog_event` notification verbs emitted by the module. -/
inductive WizEvent where
  | added
  | detectedEv
  | silent
  | setEv
  | resetEv
  | retry
  | timeout
  | confirmed
  | changed
  | operated
  deriving DecidableEq

/-- An outbound UDP datagram: either a registration probe
(`housewiz_device_sense`) or a `setPilot` state command
(`housewiz_device_control`), with its destination. -/
inductive Send where
  | sense (dest : SockAddrIn)
  | setPilot (dest : SockAddrIn) (state : Bool)
  deriving DecidableEq

/-- `housewiz_device_control` (lines 250-256): format a setPilot command
and send it to the device's stored endpoint. -/
def housewiz_device_control (d : DeviceMap) (state : Bool) : Send :=
  Send.setPilot d.ipaddress state

/-- `housewiz_device_reset` (lines 341-344). -/
def housewiz_device_reset (d : DeviceMap) (status : Bool) : DeviceMap :=
  { d with commanded := status, status := status, pending := 0, deadline := 0 }

/-- The per-device mutation performed by `housewiz_device_set`
(lines 270-279): deadline, commanded and pending. -/
def housewiz_device_set_update (d : DeviceMap) (state : Bool)
    (pulse now : Int) : DeviceMap :=
  { d with
      deadline := if 0 < pulse then now + pulse else 0
      commanded := state
      pending := now + 5 }

/-- The per-device processing of one accepted inbound message, for a resolved
device record (src/housewiz_device.c lines 562-596).  `manual` is true for a
`firstBeat` message, false for `syncPilot`; `observed` is the decoded
`params.state` of a syncPilot (ignored when `manual`, mirroring the C local
`status` being overwritten with 1 on the manual path).  Returns the new
record, the emitted notifications, and the datagrams sent.  Note the ordering
taken from the source: the manual acknowledgement is sent to the endpoint
stored *before* the final endpoint refresh of lines 593-595. -/
def housewiz_device_receive_update (d : DeviceMap) (sender : SockAddrIn)
    (now : Int) (manual : Bool) (observed : Bool) :
    DeviceMap × List WizEvent × List Send :=
  let ev0 : List WizEvent := if d.detected = 0 then [WizEvent.detectedEv] else []
  let d1 : DeviceMap := { d with detected := now }
  let step2 : DeviceMap × Bool × List Send :=
    if manual then
      ({ d1 with commanded := true, pending := 0 }, true,
       [housewiz_device_control d1 true])
    else (d1, observed, [])
  let d2 := step2.1
  let status := step2.2.1
  let step3 : DeviceMap × List WizEvent :=
    if d2.status ≠ status then
      if d2.pending ≠ 0 then
        if status = d2.commanded then
          ({ d2 with pending := 0, status := status }, [WizEvent.confirmed])
        else ({ d2 with status := status }, [])
      else ({ d2 with commanded := status, status := status },
            [if manual then WizEvent.operated else WizEvent.changed])
    else (d2, [])
  let d3 := step3.1
  ({ d3 with ipaddress := { ip := sender.ip, port := WizDevicePort } },
   ev0 ++ step3.2, step2.2.2)

/-- The per-device body of the sweep loop in `housewiz_device_periodic`
(src/housewiz_device.c lines 361-396): liveness probing, silence
detection, pulse expiry, mismatch retry/timeout.  Returns the new record,
the emitted notifications and the datagrams sent. -/
def housewiz_device_periodic_step (now : Int) (d : DeviceMap) :
    DeviceMap × List WizEvent × List Send :=
  let step0 : DeviceMap × List Send :=
    if d.last_sense + 35 ≤ now
    then ({ d with last_sense := now }, [Send.sense d.ipaddress])
    else (d, [])
  let d0 := step0.1
  let step1 : DeviceMap × List WizEvent :=
    if 0 < d0.detected ∧ d0.detected < now - 100
    then ({ housewiz_device_reset d0 false with detected := 0 },
          [WizEvent.silent])
    else (d0, [])
  let d1 := step1.1
  let step2 : DeviceMap × List WizEvent :=
    if 0 < d1.deadline ∧ d1.deadline ≤ now
    then ({ d1 with commanded := false, pending := now + 5, deadline := 0 },
          [WizEvent.resetEv])
    else (d1, [])
  let d2 := step2.1
  let step3 : DeviceMap × List WizEvent × List Send :=
    if d2.status ≠ d2.commanded then
      if now < d2.pending then
        if d2.detected ≠ 0 then
          (d2, [WizEvent.retry], [housewiz_device_control d2 d2.commanded])
        else (d2, [], [])
      else (housewiz_device_reset d2 d2.status,
            (if d2.pending ≠ 0 then [WizEvent.timeout] else []), [])
    else (d2, [], [])
  (step3.1, step1.2 ++ step2.2 ++ step3.2.1, step0.2 ++ step3.2.2)

/-- Projection of `housewiz_device_periodic_step` on the device record:
one 5-second sweep applied to one device at time `now`. -/
def sweep (now : Int) (d : DeviceMap) : DeviceMap :=
  (housewiz_device_periodic_step now d).1

/-- The device registry: the allocated array (`Devices`, of length
`DevicesSpace`, slots beyond `count` being the zeroed `calloc` spare room)
together with `DevicesCount`. -/
structure Registry where
  arr : List DeviceMap
  count : Nat
  deriving DecidableEq

/-- `housewiz_device_set` (lines 258-287) on the registry.  Returns the C
result (1 accepted, 0 device not known), the new registry and the datagrams
sent.  The range guard is the source's literal `point < 0 || point >
DevicesCount`.  Reading past the allocation cannot happen in the program
(the allocation always has spare room); the model returns the registry
unchanged in that case. -/
def housewiz_device_set (r : Registry) (point : Int) (state : Bool)
    (pulse now : Int) : Int × Registry × List Send :=
  if point < 0 ∨ (r.count : Int) < point then (0, r, [])
  else
    match r.arr.get? point.toNat with
    | none => (1, r, [])
    | some d =>
      let d2 := housewiz_device_set_update d state pulse now
      (1, { r with arr := r.arr.set point.toNat d2 },
       if d.detected ≠ 0 then [housewiz_device_control d state] else [])

/-- `housewiz_device_name` (lines 162-165): null for a rejected index,
otherwise the stored name.  The guard is the source's literal
`point < 0 || point > DevicesCount`. -/
def housewiz_device_name (r : Registry) (point : Int) : Option String :=
  if point < 0 ∨ (r.count : Int) < point then none
  else some (r.arr.getD point.toNat zeroDevice).name

/-- `housewiz_device_commanded` (lines 167-170). -/
def housewiz_device_commanded (r : Registry) (point : Int) : Bool :=
  if point < 0 ∨ (r.count : Int) < point then false
  else (r.arr.getD point.toNat zeroDevice).commanded

/-- `housewiz_device_deadline` (lines 172-175). -/
def housewiz_device_deadline (r : Registry) (point : Int) : Int :=
  if point < 0 ∨ (r.count : Int) < point then 0
  else (r.arr.getD point.toNat zeroDevice).deadline

/-- `housewiz_device_failure` (lines 177-181): null for a rejected index,
"silent" when never detected, null when healthy. -/
def housewiz_device_failure (r : Registry) (point : Int) : Option String :=
  if point < 0 ∨ (r.count : Int) < point then none
  else if (r.arr.getD point.toNat zeroDevice).detected = 0 then some "silent"
  else none

/-- `housewiz_device_get` (lines 183-186). -/
def housewiz_device_get (r : Registry) (point : Int) : Bool :=
  if point < 0 ∨ (r.count : Int) < point then false
  else (r.arr.getD point.toNat zeroDevice).status

/-- `safecpy` / bounded `snprintf "%s"` into a `char[n+1]` buffer: keep the
first `n` characters. -/
def strTrunc (n : Nat) (s : String) : String :=
  { data := s.data.take n }

/-- One configured device entry (`.wiz.devices[i]` with its `.name`,
`.address` and `.description` string fields). -/
structure ConfigEntry where
  name : String
  address : String
  description : String
  deriving DecidableEq

/-- The record built by the load loop of `housewiz_device_refresh`
(lines 428-450) for one configuration entry: the three strings copied
(truncated to the `char[32]`, `char[16]` and `char[256]` fields) into a
freshly calloc-zeroed slot, then `housewiz_device_reset (i,
Devices[i].status)` where `Devices[i].status` reads the *fresh* array,
hence is 0. -/
def configDevice (e : ConfigEntry) : DeviceMap :=
  housewiz_device_reset
    { zeroDevice with
        name := strTrunc 31 e.name
        macaddress := strTrunc 15 e.address
        description := strTrunc 255 e.description }
    { zeroDevice with
        name := strTrunc 31 e.name
        macaddress := strTrunc 15 e.address
        description := strTrunc 255 e.description }.status

/-- `housewiz_device_refresh` (lines 399-452) with a located configuration
array.  The source zeroes a few fields of the *old* array, then reassigns
`Devices` to a fresh `calloc` of `DevicesCount + 32` slots and fills it from
the configuration alone; the old records (argument `old`) contribute
nothing to the result. -/
def housewiz_device_refresh (config : List ConfigEntry) (old : Registry) :
    Registry :=
  { arr := config.map configDevice ++ List.replicate 32 zeroDevice
    count := config.length }

/-- Case-insensitive C-string comparison, as a boolean equality:
`strcasecmp(a, b) == 0`. -/
def strcaseeq (a b : List Char) : Bool :=
  a.map Char.toLower == b.map Char.toLower

/-- `housewiz_device_mac_search` (lines 477-483): index of the first device
whose stored MAC address compares case-insensitively equal to the inbound
one, as an option. -/
def housewiz_device_mac_search : List (List Char) → List Char → Option Nat
  | [], _ => none
  | s :: rest, mac =>
    if strcaseeq mac s then some 0
    else (housewiz_device_mac_search rest mac).map (· + 1)

/-- The record-creation step of `housewiz_device_receive` (lines 547-561),
projected on the column of stored MAC addresses: resolve the inbound MAC by
case-insensitive search; when unknown and there is headroom, append a new
record whose stored MAC is the inbound one truncated to the 15 characters
that fit the `char[16]` field. -/
def wizReceiveMac (space : Nat) (macs : List (List Char)) (mac : List Char) :
    List (List Char) :=
  match housewiz_device_mac_search macs mac with
  | some _ => macs
  | none => if macs.length < space then macs ++ [mac.take 15] else macs

/-! Concrete sample inputs used by the counterexamples and witnesses. -/

/-- A sender endpoint distinct from every stored device endpoint used in the
samples. -/
def senderB : SockAddrIn := { ip := 167772162, port := 54321 }

/-- A detected device that is on, was commanded on, and has an outstanding
command window (`pending != 0`). -/
def sampleOn : DeviceMap :=
  { zeroDevice with status := true, commanded := true, pending := 5,
                    detected := 50,
                    ipaddress := { ip := 167772161, port := 38899 } }

/-- A detected device that is on with no outstanding command. -/
def sampleDetected : DeviceMap :=
  { zeroDevice with status := true, commanded := true,
                    detected := 1000, last_sense := 1000 }

/-- A detected device that is off with no outstanding command. -/
def sampleOff : DeviceMap :=
  { zeroDevice with detected := 1000, last_sense := 1000 }

/-- A fresh registry with no configured device: 32 calloc-zeroed spare
slots, count 0. -/
def regEmpty : Registry :=
  { arr := List.replicate 32 zeroDevice, count := 0 }

/-- A registry holding one zeroed device record. -/
def regOne : Registry := { arr := [zeroDevice], count := 1 }

/-- A registry holding one device, MAC "aa", observed on, detected. -/
def oldReg : Registry :=
  { arr := [{ zeroDevice with macaddress := "aa", status := true,
                              detected := 99 }]
    count := 1 }

/-- A configuration whose single entry re-matches `oldReg`'s device by MAC
address. -/
def newConfig : List ConfigEntry :=
  [{ name := "lamp", address := "aa", description := "" }]

/-! Theorems. -/

/-- C1 counterexample: an inbound syncPilot for a device with
`pending != 0` whose observed state (off) differs from both the recorded
status (on) and the commanded state (on).  The claim says `commanded` is
adopted from the observed state and a changed/operated notification is
emitted; the code leaves `commanded` and `pending` untouched and emits
nothing (only `status` is updated). -/
theorem C1_counterexample :
    sampleOn.pending ≠ 0 ∧ sampleOn.status = true ∧ sampleOn.commanded = true ∧
    (housewiz_device_receive_update sampleOn senderB 60 false false).1.commanded = true ∧
    (housewiz_device_receive_update sampleOn senderB 60 false false).1.pending = 5 ∧
    (housewiz_device_receive_update sampleOn senderB 60 false false).1.status = false ∧
    (housewiz_device_receive_update sampleOn senderB 60 false false).2.1 = [] := by
  decide

/-- C1 (amended): for an inbound syncPilot whose observed state differs
from the recorded status: with `pending != 0` and `observed = commanded`,
pending is cleared and no changed notification is emitted; with
`pending = 0`, commanded is adopted and a changed notification is emitted;
with `pending != 0` and `observed != commanded`, commanded and pending are
left untouched and nothing is emitted.  In all three cases status is set to
the observed state. -/
theorem C1_amended (d : DeviceMap) (sender : SockAddrIn) (now : Int)
    (observed : Bool) (hst : d.status ≠ observed) :
    ((d.pending ≠ 0 → observed = d.commanded →
        (housewiz_device_receive_update d sender now false observed).1.pending = 0 ∧
        (housewiz_device_receive_update d sender now false observed).1.commanded = d.commanded ∧
        WizEvent.changed ∉ (housewiz_device_receive_update d sender now false observed).2.1) ∧
      (d.pending = 0 →
        (housewiz_device_receive_update d sender now false observed).1.commanded = observed ∧
        WizEvent.changed ∈ (housewiz_device_receive_update d sender now false observed).2.1) ∧
      (d.pending ≠ 0 → observed ≠ d.commanded →
        (housewiz_device_receive_update d sender now false observed).1.commanded = d.commanded ∧
        (housewiz_device_receive_update d sender now false observed).1.pending = d.pending ∧
        (housewiz_device_receive_update d sender now false observed).2.1 =
          (if d.detected = 0 then [WizEvent.detectedEv] else []))) ∧
    (housewiz_device_receive_update d sender now false observed).1.status = observed := by
  obtain ⟨nm, mac, desc, ip, det, st, cmd, pnd, dl, ls⟩ := d
  simp only [housewiz_device_receive_update, housewiz_device_control] at *
  by_cases hp : pnd = (0 : Int) <;>
    cases st <;> cases cmd <;> cases observed <;>
      simp_all

/-- Witness for C1_amended at a concrete input. -/
theorem C1_witness :
    sampleOn.status ≠ false ∧
    (housewiz_device_receive_update sampleOn senderB 60 false false).1.status = false :=
  ⟨by decide, (C1_amended sampleOn senderB 60 false (by decide)).2⟩

/-- C4 counterexample: from a registry holding one zeroed device record,
`set(0, false, 10)` at time 1000 is a reachable operation and leaves the
record with `pulse_deadline > 0` and `commanded = false`, refuting the
claimed invariant (and in particular the sentence that `set(d, false, p)`
with `p > 0` preserves it). -/
theorem C4_counterexample :
    0 < ((housewiz_device_set regOne 0 false 10 1000).2.1.arr.getD 0 zeroDevice).deadline ∧
    ((housewiz_device_set regOne 0 false 10 1000).2.1.arr.getD 0 zeroDevice).commanded = false := by
  decide

/-- C4 (amended): `set` gives no special treatment to `state = false` with a
positive pulse: after the per-device update of `housewiz_device_set`,
`pulse_deadline > 0` holds iff the pulse argument was positive, and
`commanded` equals the requested state — so the claimed implication
`pulse_deadline > 0 → commanded` holds after `set` exactly when the
requested state is true or the pulse is not positive. -/
theorem C4_amended (d : DeviceMap) (state : Bool) (pulse now : Int)
    (h : 0 ≤ now) :
    (0 < (housewiz_device_set_update d state pulse now).deadline ↔ 0 < pulse) ∧
    (housewiz_device_set_update d state pulse now).commanded = state := by
  simp only [housewiz_device_set_update]
  constructor
  · split_ifs with hp
    · constructor
      · intro _; exact hp
      · intro _; omega
    · constructor
      · intro hc; exact absurd hc (by omega)
      · intro hc; exact absurd hc hp
  · trivial

/-- Witness for C4_amended at a concrete input. -/
theorem C4_witness :
    (0 : Int) ≤ 1000 ∧
    ((0 < (housewiz_device_set_update zeroDevice false 10 1000).deadline ↔ (0 : Int) < 10) ∧
      (housewiz_device_set_update zeroDevice false 10 1000).commanded = false) :=
  ⟨by decide, C4_amended zeroDevice false 10 1000 (by decide)⟩

/-- C5: the range guard of `housewiz_device_set` and of the read accessors
is `point < 0 || point > DevicesCount`, so the out-of-range index
`point = DevicesCount` is accepted: on a freshly reloaded registry with
zero configured devices, `set(0, true, 0)` returns 1 (success), mutates the
spare calloc slot, and the accessors read that slot (`name` returns the
empty string rather than null, `failure` returns "silent" rather than
null), contradicting the claim that every index `>= count` is rejected. -/
theorem C5_bug :
    regEmpty.count = 0 ∧
    (housewiz_device_set regEmpty 0 true 0 5).1 = 1 ∧
    (housewiz_device_set regEmpty 0 true 0 5).2.1 ≠ regEmpty ∧
    housewiz_device_name regEmpty 0 = some "" ∧
    housewiz_device_failure regEmpty 0 = some "silent" ∧
    housewiz_device_commanded regEmpty 0 = false := by
  decide

/-- C6 counterexample: a syncPilot report whose state equals both the
commanded state and the currently recorded status, while `pending != 0`.
The claim says `pending_until` is cleared; the code's whole
reconciliation block is guarded by `observed != status`, so `pending`
stays untouched. -/
theorem C6_counterexample :
    sampleOn.pending = 5 ∧ sampleOn.commanded = true ∧ sampleOn.status = true ∧
    (housewiz_device_receive_update sampleOn senderB 60 false true).1.pending = 5 := by
  decide

/-- C6 (amended): a syncPilot reporting `state = commanded` while
`pending != 0` clears `pending` and emits no changed notification only
when the reported state also differs from the recorded status; when the
reported state equals the recorded status, `pending` is left unchanged. -/
theorem C6_amended (d : DeviceMap) (sender : SockAddrIn) (now : Int)
    (observed : Bool) :
    (observed = d.status →
      (housewiz_device_receive_update d sender now false observed).1.pending = d.pending) ∧
    (d.pending ≠ 0 → observed = d.commanded → observed ≠ d.status →
      (housewiz_device_receive_update d sender now false observed).1.pending = 0 ∧
      WizEvent.changed ∉ (housewiz_device_receive_update d sender now false observed).2.1) := by
  obtain ⟨nm, mac, desc, ip, det, st, cmd, pnd, dl, ls⟩ := d
  simp only [housewiz_device_receive_update, housewiz_device_control] at *
  by_cases hp : pnd = (0 : Int) <;>
    cases st <;> cases cmd <;> cases observed <;>
      simp_all

/-- Witness for C6_amended at a concrete input. -/
theorem C6_witness :
    ((true : Bool) = sampleOn.status →
      (housewiz_device_receive_update sampleOn senderB 60 false true).1.pending = sampleOn.pending) ∧
    (sampleOn.pending ≠ 0 → (true : Bool) = sampleOn.commanded → (true : Bool) ≠ sampleOn.status →
      (housewiz_device_receive_update sampleOn senderB 60 false true).1.pending = 0 ∧
      WizEvent.changed ∉ (housewiz_device_receive_update sampleOn senderB 60 false true).2.1) :=
  C6_amended sampleOn senderB 60 true

/-- C7 counterexample: a firstBeat for a device whose stored endpoint
(IP 167772161, port 38899) differs from the sender's endpoint
(IP 167772162, source port 54321).  The acknowledging setPilot is sent to
the *stored* endpoint — the endpoint refresh of lines 593-595 happens only
afterwards — so it goes neither to the endpoint the datagram arrived from
nor to the sender's IP at the command port. -/
theorem C7_counterexample :
    (housewiz_device_receive_update sampleOn senderB 60 true false).2.2 =
      [Send.setPilot { ip := 167772161, port := 38899 } true] ∧
    ({ ip := 167772161, port := 38899 } : SockAddrIn) ≠ senderB ∧
    ({ ip := 167772161, port := 38899 } : SockAddrIn) ≠
      { ip := senderB.ip, port := WizDevicePort } := by
  decide

/-- C7 (amended): a firstBeat for a known device forces
`commanded = status = true`, clears `pending_until`, and sends the
acknowledging setPilot (state true) to the device's *previously stored*
endpoint; only afterwards is the stored endpoint refreshed to the sender's
IP with the fixed command port. -/
theorem C7_amended (d : DeviceMap) (sender : SockAddrIn) (now : Int)
    (observed : Bool) :
    (housewiz_device_receive_update d sender now true observed).1.commanded = true ∧
    (housewiz_device_receive_update d sender now true observed).1.status = true ∧
    (housewiz_device_receive_update d sender now true observed).1.pending = 0 ∧
    (housewiz_device_receive_update d sender now true observed).2.2 =
      [Send.setPilot d.ipaddress true] ∧
    (housewiz_device_receive_update d sender now true observed).1.ipaddress =
      { ip := sender.ip, port := WizDevicePort } := by
  obtain ⟨nm, mac, desc, ip, det, st, cmd, pnd, dl, ls⟩ := d
  simp only [housewiz_device_receive_update, housewiz_device_control] at *
  cases st <;> simp_all

/-- C8: reloading discards all runtime state: `housewiz_device_refresh`
reassigns the registry to a fresh calloc-zeroed array and the
"use last status known" read (`Devices[i].status` on line 449) reads that
fresh array, so a configured device that re-matches the previously known
device with MAC "aa" and status on comes back with status off. -/
theorem C8_bug :
    (oldReg.arr.getD 0 zeroDevice).macaddress = "aa" ∧
    (oldReg.arr.getD 0 zeroDevice).status = true ∧
    (newConfig.headD { name := "", address := "", description := "" }).address = "aa" ∧
    ((housewiz_device_refresh newConfig oldReg).arr.getD 0 zeroDevice).macaddress = "aa" ∧
    ((housewiz_device_refresh newConfig oldReg).arr.getD 0 zeroDevice).status = false := by
  decide

/-- C10: after any accepted inbound message processed for a device record,
the stored endpoint is the sender's IPv4 address paired with the fixed
device command port 38899 (the sender's UDP source port is never stored),
and any subsequent unicast command built by `housewiz_device_control` for
that record is addressed to that command-port endpoint. -/
theorem C10_endpoint (d : DeviceMap) (sender : SockAddrIn) (now : Int)
    (manual observed : Bool) :
    (housewiz_device_receive_update d sender now manual observed).1.ipaddress =
      { ip := sender.ip, port := WizDevicePort } ∧
    ∀ st : Bool,
      housewiz_device_control
          (housewiz_device_receive_update d sender now manual observed).1 st =
        Send.setPilot { ip := sender.ip, port := WizDevicePort } st :=
  ⟨rfl, fun _ => rfl⟩

/-- C2 counterexample: `set(d, false, 7)` at time 1000 on a detected
device that is on (pre-command status true), with sweeps at the nominal
5-second cadence falling at 1004 and 1009.  The sweep at 1009 runs the
pulse expiry, which re-arms `pending` to 1014, so the retry branch — not
the timeout reset — runs at 1009, and after every sweep up to time 1010
the commanded flag is still false, not the pre-command status. -/
theorem C2_counterexample :
    sampleDetected.status = true ∧
    (sweep 1009 (sweep 1004
        (housewiz_device_set_update sampleDetected false 7 1000))).commanded = false ∧
    (sweep 1009 (sweep 1004
        (housewiz_device_set_update sampleDetected false 7 1000))).pending = 1014 := by
  decide

/-- One sweep on a device that is not silent, whose pulse deadline does
not expire now, and whose status matches its commanded state, changes none
of the five reconciliation fields. -/
lemma sweep_preserve (d : DeviceMap) (now : Int)
    (hsil : ¬(0 < d.detected ∧ d.detected < now - 100))
    (hdl : ¬(0 < d.deadline ∧ d.deadline ≤ now))
    (hmatch : d.status = d.commanded) :
    (sweep now d).commanded = d.commanded ∧ (sweep now d).status = d.status ∧
    (sweep now d).pending = d.pending ∧ (sweep now d).deadline = d.deadline ∧
    (sweep now d).detected = d.detected := by
  obtain ⟨nm, mac, desc, ip, det, st, cmd, pnd, dl, ls⟩ := d
  simp only [sweep, housewiz_device_periodic_step, housewiz_device_reset,
    housewiz_device_control] at *
  split_ifs <;> simp_all

/-- One sweep on a non-silent device with no pulse deadline, a mismatch
between status and commanded, and a still-open command window, only
retries: it changes none of the five reconciliation fields. -/
lemma sweep_retry (d : DeviceMap) (now : Int)
    (hsil : ¬(0 < d.detected ∧ d.detected < now - 100))
    (hdl : d.deadline = 0)
    (hmm : d.status ≠ d.commanded) (hp : now < d.pending) :
    (sweep now d).commanded = d.commanded ∧ (sweep now d).status = d.status ∧
    (sweep now d).pending = d.pending ∧ (sweep now d).deadline = d.deadline ∧
    (sweep now d).detected = d.detected := by
  obtain ⟨nm, mac, desc, ip, det, st, cmd, pnd, dl, ls⟩ := d
  simp only [sweep, housewiz_device_periodic_step, housewiz_device_reset,
    housewiz_device_control] at *
  split_ifs <;> simp_all

/-- One sweep on a non-silent device with no pulse deadline, a mismatch
between status and commanded, and an elapsed command window, times the
command out: commanded reverts to the recorded status and the window is
cleared. -/
lemma sweep_timeout (d : DeviceMap) (now : Int)
    (hsil : ¬(0 < d.detected ∧ d.detected < now - 100))
    (hdl : d.deadline = 0)
    (hmm : d.status ≠ d.commanded) (hp : d.pending ≤ now) :
    (sweep now d).commanded = d.status ∧ (sweep now d).status = d.status ∧
    (sweep now d).pending = 0 ∧ (sweep now d).deadline = 0 ∧
    (sweep now d).detected = d.detected := by
  obtain ⟨nm, mac, desc, ip, det, st, cmd, pnd, dl, ls⟩ := d
  simp only [sweep, housewiz_device_periodic_step, housewiz_device_reset,
    housewiz_device_control] at *
  split_ifs <;> simp_all <;> omega

/-- One sweep on a non-silent on-status device whose pulse deadline
expires now forces commanded to false: the expiry re-arms the command
window to `now + 5`, so the subsequent mismatch handling can only retry,
never reset. -/
lemma sweep_expiry (d : DeviceMap) (now : Int)
    (hsil : ¬(0 < d.detected ∧ d.detected < now - 100))
    (hdl : 0 < d.deadline ∧ d.deadline ≤ now)
    (hst : d.status = true) :
    (sweep now d).commanded = false := by
  obtain ⟨nm, mac, desc, ip, det, st, cmd, pnd, dl, ls⟩ := d
  simp only [sweep, housewiz_device_periodic_step, housewiz_device_reset,
    housewiz_device_control] at *
  split_ifs <;> simp_all

/-- C2 (amended): for a command issued with no pulse (`pulse = 0`) at time
`t`, if no inbound report arrives and the device does not cross the
silence threshold, then after the first sweep `s1` at or after `t` (which
the 5-second cadence places within `t+5`) and the following sweep `s1+5`,
the commanded flag equals the pre-command status — i.e. it has reverted
within 10 seconds of issuance. -/
theorem C2_amended (d : DeviceMap) (state : Bool) (t s1 : Int)
    (h1 : t ≤ s1) (h2 : s1 ≤ t + 5)
    (h3 : d.detected ≤ 0 ∨ s1 - 95 ≤ d.detected) :
    (sweep (s1 + 5) (sweep s1
        (housewiz_device_set_update d state 0 t))).commanded = d.status := by
  have hd0c : (housewiz_device_set_update d state 0 t).commanded = state := rfl
  have hd0s : (housewiz_device_set_update d state 0 t).status = d.status := rfl
  have hd0p : (housewiz_device_set_update d state 0 t).pending = t + 5 := rfl
  have hd0dl : (housewiz_device_set_update d state 0 t).deadline = 0 := by
    simp [housewiz_device_set_update]
  have hd0det : (housewiz_device_set_update d state 0 t).detected = d.detected := rfl
  set dd := housewiz_device_set_update d state 0 t with hdd
  have hsil1 : ¬(0 < dd.detected ∧ dd.detected < s1 - 100) := by
    rw [hd0det]; rcases h3 with h | h <;> omega
  have hsil2 : ¬(0 < dd.detected ∧ dd.detected < s1 + 5 - 100) := by
    rw [hd0det]; rcases h3 with h | h <;> omega
  by_cases hmatch : d.status = state
  · have h1 := sweep_preserve dd s1 hsil1 (by rw [hd0dl]; omega)
      (by rw [hd0s, hd0c, hmatch])
    have h2 := sweep_preserve (sweep s1 dd) (s1 + 5)
      (by rw [h1.2.2.2.2, hd0det]; rcases h3 with h | h <;> omega)
      (by rw [h1.2.2.2.1, hd0dl]; omega)
      (by rw [h1.2.1, h1.1, hd0s, hd0c, hmatch])
    rw [h2.1, h1.1, hd0c, hmatch]
  · have hmm : dd.status ≠ dd.commanded := by
      rw [hd0s, hd0c]; exact hmatch
    by_cases hs : s1 < t + 5
    · have ha := sweep_retry dd s1 hsil1 hd0dl hmm (by rw [hd0p]; omega)
      have hb := sweep_timeout (sweep s1 dd) (s1 + 5)
        (by rw [ha.2.2.2.2, hd0det]; rcases h3 with h | h <;> omega)
        (by rw [ha.2.2.2.1, hd0dl])
        (by rw [ha.2.1, ha.1, hd0s, hd0c]; exact hmatch)
        (by rw [ha.2.2.1, hd0p]; omega)
      rw [hb.1, ha.2.1, hd0s]
    · have ha := sweep_timeout dd s1 hsil1 hd0dl hmm (by rw [hd0p]; omega)
      have hb := sweep_preserve (sweep s1 dd) (s1 + 5)
        (by rw [ha.2.2.2.2, hd0det]; rcases h3 with h | h <;> omega)
        (by rw [ha.2.2.2.1]; omega)
        (by rw [ha.2.1, ha.1, hd0s])
      rw [hb.1, ha.1, hd0s]

/-- Witness for C2_amended at a concrete input. -/
theorem C2_witness :
    (1000 : Int) ≤ 1004 ∧ (1004 : Int) ≤ 1000 + 5 ∧
    (sampleDetected.detected ≤ 0 ∨ (1004 : Int) - 95 ≤ sampleDetected.detected) ∧
    (sweep (1004 + 5) (sweep 1004
        (housewiz_device_set_update sampleDetected false 0 1000))).commanded =
      sampleDetected.status :=
  ⟨by decide, by decide, by decide,
   C2_amended sampleDetected false 1000 1004 (by decide) (by decide) (by decide)⟩

/-- C3 counterexample: `set(d, true, 10)` at time 1000 on a detected
device whose status is false, with sweeps at the nominal cadence falling
at 1004 and 1009.  `commanded` does not survive until `now+10 = 1010`:
with no confirming report, the sweep at 1009 takes the command-timeout
branch (`pending = 1005 <= 1009`) and resets `commanded` to the status
(false) strictly before `now+10`, also clearing the pulse deadline — so
the claimed status-independence fails. -/
theorem C3_counterexample :
    sampleOff.status = false ∧
    (sweep 1004 (housewiz_device_set_update sampleOff true 10 1000)).commanded = true ∧
    (sweep 1009 (sweep 1004
        (housewiz_device_set_update sampleOff true 10 1000))).commanded = false ∧
    (sweep 1009 (sweep 1004
        (housewiz_device_set_update sampleOff true 10 1000))).deadline = 0 ∧
    (1009 : Int) < 1000 + 10 := by
  decide

/-- C3 (amended): `set(d, true, 10)` at time `t >= 0` followed by no
further input, for a device whose recorded status is true (so that the
command-timeout branch cannot fire first) and which does not cross the
silence threshold: under the nominal cadence, with sweeps at `s1`,
`s1+5` and `s1+10` where `t <= s1 < t+5`, the commanded flag is still
true after the sweeps strictly before `t+10` and becomes false exactly at
the first sweep at or after `t+10`. -/
theorem C3_amended (d : DeviceMap) (t s1 : Int)
    (hs : d.status = true) (h0 : 0 ≤ t) (h1 : t ≤ s1) (h2 : s1 < t + 5)
    (h3 : d.detected ≤ 0 ∨ s1 - 90 ≤ d.detected) :
    (sweep s1 (housewiz_device_set_update d true 10 t)).commanded = true ∧
    (sweep (s1 + 5) (sweep s1
        (housewiz_device_set_update d true 10 t))).commanded = true ∧
    (sweep (s1 + 10) (sweep (s1 + 5) (sweep s1
        (housewiz_device_set_update d true 10 t)))).commanded = false := by
  have hd0c : (housewiz_device_set_update d true 10 t).commanded = true := rfl
  have hd0s : (housewiz_device_set_update d true 10 t).status = d.status := rfl
  have hd0dl : (housewiz_device_set_update d true 10 t).deadline = t + 10 := by
    norm_num [housewiz_device_set_update]
  have hd0det : (housewiz_device_set_update d true 10 t).detected = d.detected := rfl
  set dd := housewiz_device_set_update d true 10 t with hdd
  have ha := sweep_preserve dd s1
    (by rw [hd0det]; rcases h3 with h | h <;> omega)
    (by rw [hd0dl]; omega)
    (by rw [hd0s, hd0c, hs])
  have hb := sweep_preserve (sweep s1 dd) (s1 + 5)
    (by rw [ha.2.2.2.2, hd0det]; rcases h3 with h | h <;> omega)
    (by rw [ha.2.2.2.1, hd0dl]; omega)
    (by rw [ha.2.1, ha.1, hd0s, hd0c, hs])
  have hc := sweep_expiry (sweep (s1 + 5) (sweep s1 dd)) (s1 + 10)
    (by rw [hb.2.2.2.2, ha.2.2.2.2, hd0det]; rcases h3 with h | h <;> omega)
    (by rw [hb.2.2.2.1, ha.2.2.2.1, hd0dl]; omega)
    (by rw [hb.2.1, ha.2.1, hd0s, hs])
  exact ⟨by rw [ha.1, hd0c], by rw [hb.1, ha.1, hd0c], hc⟩

/-- Witness for C3_amended at a concrete input. -/
theorem C3_witness :
    sampleDetected.status = true ∧
    ((sweep 1004 (housewiz_device_set_update sampleDetected true 10 1000)).commanded = true ∧
     (sweep (1004 + 5) (sweep 1004
         (housewiz_device_set_update sampleDetected true 10 1000))).commanded = true ∧
     (sweep (1004 + 10) (sweep (1004 + 5) (sweep 1004
         (housewiz_device_set_update sampleDetected true 10 1000)))).commanded = false) :=
  ⟨by decide,
   C3_amended sampleDetected 1000 1004 (by decide) (by decide) (by decide)
     (by decide) (by decide)⟩

/-- Case-insensitive C-string equality is symmetric. -/
lemma strcaseeq_symm {a b : List Char} (h : strcaseeq a b = true) :
    strcaseeq b a = true := by
  simp only [strcaseeq, beq_iff_eq] at *
  exact h.symm

/-- Case-insensitive C-string equality is transitive. -/
lemma strcaseeq_trans {a b c : List Char} (h1 : strcaseeq a b = true)
    (h2 : strcaseeq b c = true) : strcaseeq a c = true := by
  simp only [strcaseeq, beq_iff_eq] at *
  exact h1.trans h2

/-- Case-insensitively equal strings have equal length. -/
lemma strcaseeq_length {a b : List Char} (h : strcaseeq a b = true) :
    a.length = b.length := by
  simp only [strcaseeq, beq_iff_eq] at h
  have h2 := congrArg List.length h
  simpa using h2

/-- If some stored MAC matches the inbound MAC case-insensitively, the MAC
search succeeds. -/
lemma mac_search_isSome {macs : List (List Char)} {mac s : List Char}
    (hmem : s ∈ macs) (h : strcaseeq mac s = true) :
    (housewiz_device_mac_search macs mac).isSome = true := by
  induction macs with
  | nil => cases hmem
  | cons x rest ih =>
    simp only [housewiz_device_mac_search]
    split_ifs with hx
    · rfl
    · rcases List.mem_cons.mp hmem with hsx | hmem2
      · exact absurd (hsx ▸ h) hx
      · have hrest := ih hmem2
        cases hsr : housewiz_device_mac_search rest mac with
        | none => rw [hsr] at hrest; simp at hrest
        | some i => rfl

/-- The invariant behind C9: starting from a registry MAC column that is at
most one longer than `bound + 1` — and, if it has already grown to
`bound + 1`, contains a match for `mac` — processing any sequence of
messages that all carry a case-variant of `mac` (of at most 15 characters)
keeps the column length at most `bound + 1`. -/
lemma wizReceiveMac_foldl_bound (mac : List Char) (hlen : mac.length ≤ 15)
    (space : Nat) :
    ∀ (ms : List (List Char)) (macs : List (List Char)) (bound : Nat),
      (∀ m ∈ ms, strcaseeq m mac = true) →
      macs.length ≤ bound + 1 →
      (macs.length = bound + 1 → ∃ s ∈ macs, strcaseeq mac s = true) →
      (ms.foldl (wizReceiveMac space) macs).length ≤ bound + 1 := by
  intro ms
  induction ms with
  | nil =>
    intro macs bound _ hle _
    simpa using hle
  | cons m rest ih =>
    intro macs bound hms hle hex
    have hm : strcaseeq m mac = true := hms m (List.mem_cons_self m rest)
    have hrest : ∀ x ∈ rest, strcaseeq x mac = true :=
      fun x hx => hms x (List.mem_cons_of_mem m hx)
    simp only [List.foldl_cons]
    cases hsr : housewiz_device_mac_search macs m with
    | some i =>
      have hstep : wizReceiveMac space macs m = macs := by
        simp [wizReceiveMac, hsr]
      rw [hstep]
      exact ih macs bound hrest hle hex
    | none =>
      have hlt : macs.length ≤ bound := by
        by_contra hgt
        have heq : macs.length = bound + 1 := by omega
        obtain ⟨s, hsmem, hseq⟩ := hex heq
        have hmsr := mac_search_isSome hsmem (strcaseeq_trans hm hseq)
        rw [hsr] at hmsr
        simp at hmsr
      by_cases hsp : macs.length < space
      · have hstep : wizReceiveMac space macs m = macs ++ [m.take 15] := by
          simp [wizReceiveMac, hsr, hsp]
        have hm15 : m.take 15 = m :=
          List.take_of_length_le (by rw [strcaseeq_length hm]; exact hlen)
        rw [hstep]
        apply ih (macs ++ [m.take 15]) bound hrest
        · simp; omega
        · intro _
          exact ⟨m.take 15, by simp, by rw [hm15]; exact strcaseeq_symm hm⟩
      · have hstep : wizReceiveMac space macs m = macs := by
          simp [wizReceiveMac, hsr, hsp]
        rw [hstep]
        exact ih macs bound hrest hle hex

/-- C9 counterexample: a 16-character MAC string does not fit the
`char[16]` field of the device record, so the created record stores only
the first 15 characters; a second message carrying the same MAC then fails
the case-insensitive search against the truncated stored value and a
second record is created for the same MAC, refuting the claim for
arbitrary MAC strings. -/
theorem C9_counterexample :
    ("aabbccddeeffgghh".data.length = 16) ∧
    ([("aabbccddeeffgghh".data),
      ("aabbccddeeffgghh".data)].foldl (wizReceiveMac 8) []).length = 2 := by
  decide

/-- C9 (amended): for a MAC address of at most 15 characters (so that it
fits the record's `char[16]` field untruncated), any sequence of inbound
syncPilot/firstBeat messages whose MAC is a case-variant of it creates at
most one new device record: the first creation stores the MAC verbatim and
every subsequent search resolves to a stored record. -/
theorem C9_amended (macs0 : List (List Char)) (space : Nat) (mac : List Char)
    (ms : List (List Char)) (hlen : mac.length ≤ 15)
    (hms : ∀ m ∈ ms, strcaseeq m mac = true) :
    (ms.foldl (wizReceiveMac space) macs0).length ≤ macs0.length + 1 :=
  wizReceiveMac_foldl_bound mac hlen space ms macs0 macs0.length hms
    (by omega) (fun h => absurd h (by omega))

/-- Witness for C9_amended at a concrete input: two case-variant messages
for MAC "ab" on an empty registry yield at most one record. -/
theorem C9_witness :
    ("ab".data.length ≤ 15) ∧
    (∀ m ∈ [("ab".data), ("AB".data)], strcaseeq m ("ab".data) = true) ∧
    ([("ab".data), ("AB".data)].foldl
        (wizReceiveMac 4) []).length ≤ ([] : List (List Char)).length + 1 :=
  ⟨by decide, by decide,
   C9_amended [] 4 ("ab".data) [("ab".data), ("AB".data)]
     (by decide) (by decide)⟩

end Housewiz
